import Mathlib

/-!
Verification of the stock-analysis multi-agent service.

This file gives a shallow embedding of the request/run/store logic of
`src/multi_agent_demo.py`, `src/fastapi_main.py` and
`src/fastapi_multi_agent_demo.py`, and settles the frozen claims about it.

Modelling conventions:
* The in-process dictionary `analysis_results` is modelled as an association
  list read only through `Store.lookup`; a write conses the new binding in
  front (shadowing any older binding), deletion drops every binding for the
  key.  Only the map view (`Store.lookup`) is reasoned about, so this is
  equivalent to a Python dict.
* Values that the code obtains from external collaborators (the language
  model, the langgraph supervisor stream, the MCP tool client) are inputs of
  the embedded functions: a run is parameterised by the stream of update
  chunks the supervisor yields, and by whether the stream ends normally or
  raises.
* Python attribute probing (`hasattr(m, 'content')` etc.) is modelled with
  `Option` fields; timestamps (`datetime.now()`) are real time and are left
  out of the message records.
* An HTTP error response (`raise HTTPException(code, detail)`) is the
  `Except.error (code, detail)` result of an endpoint.
-/

/-- One formatted message as produced by `format_message_for_api` /
the node-update records of `extract_messages_from_update`
(`multi_agent_demo.py`).  The Python dict keys are `type` (here `mtype`),
`content` and optionally `agent`; the `timestamp` key is real time and is not
modelled. -/
structure ApiMsg where
  mtype : String
  content : String
  agent : Option String := none
deriving DecidableEq, Repr

/-- A message object coming back from the langchain/langgraph libraries.
`mtype`, `role` and `content` are `Option` because the Python code probes
them with `hasattr`/`getattr`; `text` stands for `str(message)`, the fallback
used when `content` is absent.  `routing` marks handoff/transfer (routing)
messages; the repository's code never reads it — it exists so that the
spec's notion of a non-routing message can be stated and compared. -/
structure RawMsg where
  mtype : Option String := none
  role : Option String := none
  content : Option String := none
  routing : Bool := false
  text : String := ""
deriving DecidableEq, Repr

/-- One value of the `analysis_results` dict in `multi_agent_demo.py`.
`final_recommendations` is present only in the completed write and `error`
only in the failed write, hence `Option`; every writer sets the remaining
fields (the endpoint-side `dict.get` defaults are therefore never needed). -/
structure Entry where
  status : String
  messages : List ApiMsg
  final_recommendations : Option String
  error : Option String
  session_id : String
  progress : String
deriving DecidableEq, Repr

/-- The `analysis_results` dict, as an association list read via
`Store.lookup`. -/
abbrev Store := List (String × Entry)

/-- Dict read: the value bound to `k`, if any. -/
def Store.lookup (s : Store) (k : String) : Option Entry :=
  (s.find? (fun p => p.1 == k)).map (fun p => p.2)

/-- Dict assignment `analysis_results[k] = v`: the new binding shadows any
older one (only the `Store.lookup` view is used, so order is immaterial). -/
def Store.insert (s : Store) (k : String) (v : Entry) : Store :=
  (k, v) :: s

/-- Dict field mutation `analysis_results[k]["f"] = x`: rewrite every binding
of `k` (with shadowing semantics this agrees with mutating the visible one).
In the modelled executions the key is always present, matching the source,
where a missing key would raise `KeyError`. -/
def Store.update : Store → String → (Entry → Entry) → Store
  | [], _, _ => []
  | p :: t, k, f => (if p.1 == k then (p.1, f p.2) else p) :: Store.update t k f

/-- Dict deletion `del analysis_results[k]`. -/
def Store.erase (s : Store) (k : String) : Store :=
  s.filter (fun p => !(p.1 == k))

/-- The entry written by the first statement of `run_stock_analysis`
(status running, no messages, progress `Starting analysis...`) and by the
loop writes: a `running` entry with the given messages and progress. -/
def runningEntry (session : String) (msgs : List ApiMsg) (prog : String) : Entry :=
  { status := "running", messages := msgs, final_recommendations := none,
    error := none, session_id := session, progress := prog }

/-- The very first store write of `run_stock_analysis`. -/
def initialEntry (session : String) : Entry :=
  runningEntry session [] "Starting analysis..."

/-- The entry written on normal completion of `run_stock_analysis`. -/
def completedEntry (session : String) (msgs : List ApiMsg) (fr : String) : Entry :=
  { status := "completed", messages := msgs, final_recommendations := some fr,
    error := none, session_id := session,
    progress := "Analysis completed successfully" }

/-- The entry written by the `except` branch of `run_stock_analysis`:
status failed, messages reset to the empty list, error `str(e)`. -/
def failedEntry (session msg : String) : Entry :=
  { status := "failed", messages := [], final_recommendations := none,
    error := some msg, session_id := session,
    progress := "Analysis failed: " ++ msg }

/-- `format_message_for_api` (`multi_agent_demo.py`): `type` defaults to
`unknown` when absent, `content` falls back to `str(message)`. -/
def format_message_for_api (m : RawMsg) : ApiMsg :=
  { mtype := m.mtype.getD "unknown", content := m.content.getD m.text }

/-- Python slice `messages[-1:]` (the `last_message=True` path). -/
def lastSlice (ms : List RawMsg) : List RawMsg :=
  match ms.getLast? with
  | none => []
  | some m => [m]

/-- One update chunk yielded by `supervisor.stream(...)`: a dict mapping node
names to node updates, each carrying a `messages` list.  The call site passes
no `subgraphs` flag, so the tuple branch of `extract_messages_from_update`
is dead and the chunk is always a plain dict. -/
structure Chunk where
  nodes : List (String × List RawMsg)
deriving DecidableEq, Repr

/-- Membership/read of the `supervisor` key of a chunk
(`"supervisor" in final_chunk` / `final_chunk["supervisor"]["messages"]`). -/
def Chunk.supHistory (c : Chunk) : Option (List RawMsg) :=
  (c.nodes.find? (fun p => p.1 == "supervisor")).map (fun p => p.2)

/-- `extract_messages_from_update(update, last_message=True)`
(`multi_agent_demo.py`): for each node in the update dict, a node-update
record followed by the formatted last message of that node.  The inner
`try`/`except` around `convert_to_messages` concerns malformed library
objects and is not modelled (the `RawMsg` list is already the converted
messages). -/
def extract_messages_from_update (c : Chunk) : List ApiMsg :=
  (c.nodes.map (fun p =>
    ({ mtype := "node_update", content := "Update from node " ++ p.1,
       agent := some p.1 } : ApiMsg) ::
    (lastSlice p.2).map format_message_for_api)).flatten

/-- All messages accumulated by `all_messages.extend(...)` over a list of
chunks, in stream order. -/
def allExtracted : List Chunk → List ApiMsg
  | [] => []
  | c :: cs => extract_messages_from_update c ++ allExtracted cs

/-- The `all_messages` accumulator after the loop has consumed the first `k`
chunks of the stream. -/
def msgsUpTo (cs : List Chunk) (k : Nat) : List ApiMsg :=
  allExtracted (cs.take k)

/-- Outcome of iterating `supervisor.stream(...)` inside the `try` block:
either the stream ends after yielding `chunks`, or it yields `seen` chunks
and then an exception with message `str(e)` escapes (this also covers a
failure of `initialize_supervisor`, with `seen = []`). -/
inductive StreamOutcome where
  | fin (chunks : List Chunk)
  | exc (seen : List Chunk) (msg : String)
deriving DecidableEq, Repr

/-- The final-recommendations extraction of `run_stock_analysis`: starts as
the empty string; if the final chunk exists and has a `supervisor` key whose
message history is non-empty and whose last message has a `content`
attribute, that content is taken.  An empty dict chunk is falsy in Python
and also has no `supervisor` key, so both gates collapse to `supHistory`. -/
def finalRecs : Option Chunk → String
  | none => ""
  | some c =>
    match c.supHistory with
    | none => ""
    | some hist =>
      match hist.getLast? with
      | none => ""
      | some m => m.content.getD ""

/-- Content of the last message of a history, with the code's empty-string
defaults — the quantity `run_stock_analysis` actually stores (it never
looks at whether that message is a routing message). -/
def lastMessageContent (hist : List RawMsg) : String :=
  (hist.getLast?.bind (fun m => m.content)).getD ""

/-- Modelled from the spec: `final_result` = content of the last
*non-routing* message of the supervisor's final message history (spec §4.3).
Stated only to compare with the source's `finalRecs`. -/
def specFinalResult (hist : List RawMsg) : String :=
  match (hist.filter (fun m => !m.routing)).getLast? with
  | none => ""
  | some m => m.content.getD ""

/-- The loop's progress string `f"Processing... (N updates)"`. -/
def progressText (n : Nat) : String :=
  "Processing... (" ++ toString n ++ " updates)"

/-- One iteration of the `for chunk in supervisor.stream(...)` loop of
`run_stock_analysis`: extend `all_messages` with the extracted messages and
write the grown list and the new progress string back into the entry (the
source performs the two key assignments separately; on the map view they
are one entry update). -/
def loopStep (id : String) (s : Store × List ApiMsg) (c : Chunk) :
    Store × List ApiMsg :=
  (Store.update s.1 id (fun e =>
     { e with messages := s.2 ++ extract_messages_from_update c,
              progress :=
                progressText (s.2 ++ extract_messages_from_update c).length }),
   s.2 ++ extract_messages_from_update c)

/-- The background task's first store write:
`analysis_results[analysis_id] = initial running entry`. -/
def startedStore (store : Store) (id session : String) : Store :=
  Store.insert store id (initialEntry session)

/-- Store state after the first write and the pre-loop progress update
`analysis_results[analysis_id]["progress"] = "Running multi-agent analysis..."`. -/
def preLoop (store : Store) (id session : String) : Store :=
  Store.update (startedStore store id session) id
    (fun e => { e with progress := "Running multi-agent analysis..." })

/-- Store state and `all_messages` accumulator of a run that has consumed
the given chunks so far (this is what a concurrent poll observes while the
run is in flight). -/
def midRun (store : Store) (id session : String) (seen : List Chunk) :
    Store × List ApiMsg :=
  seen.foldl (loopStep id) (preLoop store id session, [])

/-- The final store write of the `try` block of `run_stock_analysis`: an
unconditional dict assignment of the completed entry (there is no check that
`analysis_id` is still present). -/
def finalizeCompleted (store : Store) (id session : String)
    (msgs : List ApiMsg) (fr : String) : Store :=
  Store.insert store id (completedEntry session msgs fr)

/-- The store write of the `except` branch of `run_stock_analysis`: an
unconditional dict assignment of the failed entry. -/
def finalizeFailed (store : Store) (id session msg : String) : Store :=
  Store.insert store id (failedEntry session msg)

/-- `run_stock_analysis(query, analysis_id, session_id)` as a store
transformer, parameterised by what the supervisor stream does.  The `query`
string only feeds the external stream and is absorbed into `out`. -/
def run_stock_analysis (store : Store) (analysis_id session_id : String)
    (out : StreamOutcome) : Store :=
  match out with
  | .fin cs =>
    finalizeCompleted (midRun store analysis_id session_id cs).1
      analysis_id session_id (midRun store analysis_id session_id cs).2
      (finalRecs cs.getLast?)
  | .exc seen msg =>
    finalizeFailed (midRun store analysis_id session_id seen).1
      analysis_id session_id msg

/-- Request model of `multi_agent_demo.py`; the pydantic field defaults are
the Lean structure defaults (they apply when the field is absent from the
request body, not when it is explicitly the empty string). -/
structure StockAnalysisRequest where
  query : String := "Analyze promising NSE stocks for short-term trading"
  session_id : String := "default"
deriving DecidableEq, Repr

/-- Response model of `multi_agent_demo.py`. -/
structure StockAnalysisResponse where
  analysis_id : String
  status : String
  messages : List ApiMsg
  final_recommendations : Option String := none
  session_id : String
deriving DecidableEq, Repr

/-- Status model of `multi_agent_demo.py`. -/
structure AnalysisStatus where
  analysis_id : String
  status : String
  progress : String
  session_id : String
deriving DecidableEq, Repr

/-- The background work scheduled by `background_tasks.add_task(...)`;
FastAPI runs it only after the response has been sent. -/
structure BackgroundTask where
  query : String
  analysis_id : String
  session_id : String
deriving DecidableEq, Repr

/-- `GET /analysis/id/status` (`get_analysis_status`): 404 when the id is
unknown, otherwise the status summary of the stored entry. -/
def get_analysis_status (store : Store) (analysis_id : String) :
    Except (Nat × String) AnalysisStatus :=
  match Store.lookup store analysis_id with
  | none => .error (404, "Analysis not found")
  | some r =>
    .ok { analysis_id := analysis_id, status := r.status,
          progress := r.progress, session_id := r.session_id }

/-- `GET /analysis/id` (`get_analysis_result`): 404 when the id is unknown,
otherwise the full stored transcript. -/
def get_analysis_result (store : Store) (analysis_id : String) :
    Except (Nat × String) StockAnalysisResponse :=
  match Store.lookup store analysis_id with
  | none => .error (404, "Analysis not found")
  | some r =>
    .ok { analysis_id := analysis_id, status := r.status,
          messages := r.messages,
          final_recommendations := r.final_recommendations,
          session_id := r.session_id }

/-- `DELETE /analysis/id` (`delete_analysis`): 404 when the id is unknown,
otherwise remove the binding. -/
def delete_analysis (store : Store) (analysis_id : String) :
    Except (Nat × String) (Store × String) :=
  if (Store.lookup store analysis_id).isSome then
    .ok (Store.erase store analysis_id, "Analysis deleted successfully")
  else
    .error (404, "Analysis not found")

/-- `POST /analyze` (`start_analysis`): generate an id (passed in here in
place of `uuid.uuid4()`), schedule `run_stock_analysis` as a background
task, and return the `started` response.  The handler body never touches
`analysis_results`, so the store is returned unchanged; the scheduled task
runs only after the response has been returned. -/
def start_analysis (store : Store) (analysis_id : String)
    (req : StockAnalysisRequest) :
    Store × StockAnalysisResponse × BackgroundTask :=
  (store,
   { analysis_id := analysis_id, status := "started", messages := [],
     final_recommendations := none, session_id := req.session_id },
   { query := req.query, analysis_id := analysis_id,
     session_id := req.session_id })

/-- Request model of `fastapi_main.py`. -/
structure ChatRequest where
  message : String
  session_id : String := "default"
deriving DecidableEq, Repr

/-- Response model of `fastapi_main.py`. -/
structure ChatResponse where
  response : String
  session_id : String
deriving DecidableEq, Repr

/-- A Python exception as seen by an `except Exception` handler: either a
(starlette) `HTTPException`, whose `str` is `"code: detail"`, or any other
exception with its `str(e)`. -/
inductive PyExc where
  | httpExc (code : Nat) (detail : String)
  | otherExc (msg : String)
deriving DecidableEq, Repr

/-- `str(e)` of a caught exception (`starlette.exceptions.HTTPException`
formats itself as `"status_code: detail"`). -/
def strOfExc : PyExc → String
  | .httpExc code detail => toString code ++ ": " ++ detail
  | .otherExc msg => msg

/-- Python's `not request.message.strip()`: true exactly when every
character of the message is whitespace. -/
def stripEmpty (s : String) : Bool :=
  s.toList.all Char.isWhitespace

/-- The body of the `try` block of `chat_endpoint` (`fastapi_main.py`):
raise `HTTPException(400)` on an empty/whitespace message, otherwise return
the agent's last-message content (`agentReply` stands for the external
`agent.ainvoke` call, which may itself raise). -/
def chat_endpoint_try (req : ChatRequest) (agentReply : Except PyExc String) :
    Except PyExc ChatResponse :=
  if stripEmpty req.message then
    Except.error (PyExc.httpExc 400 "Message cannot be empty")
  else
    match agentReply with
    | .ok content => .ok { response := content, session_id := req.session_id }
    | .error e => .error e

/-- `POST /chat` (`chat_endpoint`): the whole body sits inside
`try: ... except Exception as e: raise HTTPException(500, ...)`.  Since
`HTTPException` is an `Exception` subclass, the deliberately raised 400 is
caught by the blanket handler and re-raised as a 500. -/
def chat_endpoint (req : ChatRequest) (agentReply : Except PyExc String) :
    Except (Nat × String) ChatResponse :=
  match chat_endpoint_try req agentReply with
  | .ok r => .ok r
  | .error e => .error (500, "Error processing request: " ++ strOfExc e)

/-- Request model of `fastapi_multi_agent_demo.py` (source name
`StockAnalysisRequest`, renamed here to avoid the clash with the model of
`multi_agent_demo.py`): the query defaults to the empty string. -/
structure FMARequest where
  query : String := ""
deriving DecidableEq, Repr

/-- The fallback query of the `analyze_stocks` call site. -/
def fmaDefaultQuery : String :=
  "Analyze promising NSE stocks for short-term trading"

/-- The expression `request.query or "Analyze promising NSE stocks for
short-term trading"`: Python `or` takes the right operand exactly when the
string is empty (the only falsy `str`). -/
def queryOrDefault (req : FMARequest) : String :=
  if req.query = "" then fmaDefaultQuery else req.query

/-- One processed message of `process_messages`
(`fastapi_multi_agent_demo.py`). -/
structure ProcMsg where
  role : String
  content : String
  mtype : String
deriving DecidableEq, Repr

/-- `process_messages`: keep exactly the messages with a `content`
attribute, reading `role`/`type` with `getattr` defaults. -/
def process_messages (ms : List RawMsg) : List ProcMsg :=
  ms.filterMap (fun m =>
    m.content.map (fun c =>
      { role := m.role.getD "assistant", content := c,
        mtype := m.mtype.getD "text" }))

/-- Response model of `fastapi_multi_agent_demo.py`. -/
structure FMAResponse where
  status : String
  data : List ProcMsg
  final_message : String
deriving DecidableEq, Repr

/-- `POST /analyze-stocks` (`analyze_stocks`, `fastapi_multi_agent_demo.py`).
`runSup` stands for the external work inside the `try` block — agent
initialization plus draining `supervisor_agent.astream` — returning the
final chunk (or `none` if the stream yielded nothing), or raising.  Every
raised exception, including the deliberately raised
`HTTPException(500, "No response from supervisor")`, is caught by the
blanket `except` and re-raised as `HTTPException(500, "Analysis failed: " +
str(e))`. -/
def analyze_stocks (req : FMARequest)
    (runSup : String → Except String (Option Chunk)) :
    Except (Nat × String) FMAResponse :=
  match runSup (queryOrDefault req) with
  | .error e => .error (500, "Analysis failed: " ++ e)
  | .ok fc =>
    match fc.bind Chunk.supHistory with
    | some hist =>
      .ok { status := "success", data := process_messages hist,
            final_message :=
              match hist.getLast? with
              | some m => m.content.getD "Analysis completed"
              | none => "" }
    | none => .error (500, "Analysis failed: 500: No response from supervisor")

/-- Modelled from the spec: the Supervisor's routing decision for one turn
(spec §4.2) — either completion, or a delegation naming one or more agents.
The delegation loop itself is provided by the external `langgraph_supervisor`
framework and is not part of `src/`; only its configuration (the agent list
and the one-agent-at-a-time prompt of `initialize_supervisor`) is. -/
inductive SupDecision where
  | done
  | delegate (names : List String)
deriving DecidableEq, Repr

/-- Modelled from the spec: the subordinate the Run Controller actually
invokes for a decision — none for DONE or for a delegation naming no
recognized agent (treated as DONE, spec §4.2), and the first-named agent of
a multi-agent selection (spec hard constraint 1: log and pick the
first-named agent). -/
def selectedAgent : SupDecision → Option String
  | .done => none
  | .delegate names => names.head?

/-- An execution event of one turn: the supervisor ran, or a subordinate
agent ran. -/
inductive TurnEvent where
  | supervisorRan
  | agentRan (name : String)
deriving DecidableEq, Repr

/-- Whether an event is a subordinate-agent execution. -/
def isAgentRan : TurnEvent → Bool
  | .agentRan _ => true
  | .supervisorRan => false

/-- Modelled from the spec: one turn of the Run Controller loop (spec §4.3)
— the Supervisor is invoked first, then the selected subordinate (if any)
runs. -/
def runTurn (d : SupDecision) : List TurnEvent :=
  TurnEvent.supervisorRan ::
    (match selectedAgent d with
     | none => []
     | some a => [TurnEvent.agentRan a])

/-- Modelled from the spec: the turn loop over a sequence of Supervisor
decisions, stopping at the first DONE (spec §4.3). -/
def runLoop : List SupDecision → List (List TurnEvent)
  | [] => []
  | d :: ds =>
    match selectedAgent d with
    | none => [runTurn d]
    | some _ => runTurn d :: runLoop ds

/-- The four subordinate agents configured in `initialize_supervisor`
(`multi_agent_demo.py`). -/
def configuredAgents : List String :=
  ["stock_finder_agent", "market_data_agent", "news_analyst_agent",
   "price_recommender_agent"]

/-- A sample delegating chunk used for concrete evaluations: a supervisor
node update with one routing message. -/
def demoChunk : Chunk :=
  { nodes := [("supervisor",
      [{ mtype := some "ai", role := some "assistant",
         content := some "delegating to stock_finder_agent", routing := true,
         text := "AIMessage" }])] }

/-- A supervisor final history whose last message is a routing (handoff)
message; the preceding message carries the actual recommendation. -/
def finalHist : List RawMsg :=
  [{ mtype := some "ai", role := some "assistant",
     content := some "Buy RELIANCE at 2900", routing := false,
     text := "AIMessage" },
   { mtype := some "ai", role := some "assistant",
     content := some "Transferring back to supervisor", routing := true,
     text := "AIMessage" }]

/-- A final chunk carrying `finalHist` under the `supervisor` key. -/
def finalChunkC7 : Chunk :=
  { nodes := [("supervisor", finalHist)] }

/-! Store lemmas. -/

/-- A fresh dict assignment is visible to a subsequent read of that key. -/
theorem lookup_insert_self (s : Store) (k : String) (v : Entry) :
    Store.lookup (Store.insert s k v) k = some v := by
  simp [Store.lookup, Store.insert, List.find?_cons]

/-- After deletion the key is gone. -/
theorem lookup_erase_self (s : Store) (k : String) :
    Store.lookup (Store.erase s k) k = none := by
  induction s with
  | nil => rfl
  | cons p t _ =>
    cases hb : p.1 == k with
    | true => simp [Store.erase, Store.lookup, List.filter_cons, hb]
    | false =>
      simp [Store.erase, Store.lookup, List.filter_cons, List.find?_cons, hb]

/-- A field mutation of the entry bound to `k` is what a subsequent read of
`k` observes. -/
theorem lookup_update_self (s : Store) (k : String) (f : Entry → Entry) :
    Store.lookup (Store.update s k f) k = (Store.lookup s k).map f := by
  induction s with
  | nil => rfl
  | cons p t ih =>
    cases hb : p.1 == k with
    | true =>
      simp [Store.update, Store.lookup, List.find?_cons, hb]
    | false =>
      simp [Store.update, Store.lookup, List.find?_cons, hb] at ih ⊢
      exact ih

/-! Run-loop lemmas. -/

/-- The accumulator grown by one loop iteration. -/
theorem loopStep_snd (id : String) (p : Store × List ApiMsg) (c : Chunk) :
    (loopStep id p c).2 = p.2 ++ extract_messages_from_update c := rfl

/-- The accumulator after folding the loop over a chunk list. -/
theorem foldl_loopStep_snd (id : String) (cs : List Chunk) :
    ∀ p : Store × List ApiMsg,
      (cs.foldl (loopStep id) p).2 = p.2 ++ allExtracted cs := by
  induction cs with
  | nil => intro p; simp [allExtracted]
  | cons c cs ih =>
    intro p
    rw [List.foldl_cons, ih, loopStep_snd]
    simp [allExtracted]

/-- Folding the loop preserves a running entry, growing its messages by the
extracted updates of the consumed chunks. -/
theorem foldl_loopStep_lookup (id session : String) (cs : List Chunk) :
    ∀ (st : Store) (acc : List ApiMsg) (pr : String),
      Store.lookup st id = some (runningEntry session acc pr) →
      ∃ q, Store.lookup ((cs.foldl (loopStep id) (st, acc)).1) id
          = some (runningEntry session (acc ++ allExtracted cs) q) := by
  induction cs with
  | nil =>
    intro st acc pr h
    exact ⟨pr, by simpa [allExtracted] using h⟩
  | cons c cs ih =>
    intro st acc pr h
    rw [List.foldl_cons]
    have h2 : Store.lookup ((loopStep id (st, acc) c).1) id
        = some (runningEntry session (acc ++ extract_messages_from_update c)
            (progressText (acc ++ extract_messages_from_update c).length)) := by
      have h3 := lookup_update_self st id (fun e =>
        { e with messages := acc ++ extract_messages_from_update c,
                 progress :=
                   progressText (acc ++ extract_messages_from_update c).length })
      rw [h] at h3
      exact h3
    obtain ⟨q, hq⟩ := ih ((loopStep id (st, acc) c).1)
      (acc ++ extract_messages_from_update c)
      (progressText (acc ++ extract_messages_from_update c).length) h2
    exact ⟨q, by simpa [allExtracted, List.append_assoc] using hq⟩

/-- A mid-flight run's store still binds the run id to a running entry whose
messages are exactly the updates extracted so far. -/
theorem midRun_lookup (store : Store) (id session : String) (seen : List Chunk) :
    ∃ q, Store.lookup (midRun store id session seen).1 id
        = some (runningEntry session (allExtracted seen) q) := by
  have h : Store.lookup (preLoop store id session) id
      = some (runningEntry session [] "Running multi-agent analysis...") := by
    rw [preLoop, lookup_update_self, startedStore, lookup_insert_self]
    rfl
  obtain ⟨q, hq⟩ := foldl_loopStep_lookup id session seen _ _ _ h
  exact ⟨q, by simpa using hq⟩

/-- The accumulator of a mid-flight run. -/
theorem midRun_snd (store : Store) (id session : String) (seen : List Chunk) :
    (midRun store id session seen).2 = allExtracted seen := by
  rw [midRun, foldl_loopStep_snd]
  rfl

/-- Extraction distributes over chunk-list concatenation. -/
theorem allExtracted_append (a b : List Chunk) :
    allExtracted (a ++ b) = allExtracted a ++ allExtracted b := by
  induction a with
  | nil => simp [allExtracted]
  | cons c a ih => simp [allExtracted, ih]

/-- One more consumed chunk only appends to the accumulated messages. -/
theorem msgsUpTo_succ (cs : List Chunk) (k : Nat) :
    msgsUpTo cs (k + 1) = msgsUpTo cs k ++ allExtracted ((cs.drop k).take 1) := by
  rw [msgsUpTo, msgsUpTo, ← allExtracted_append, ← List.take_add]

/-- The failed entry's progress string is never empty. -/
theorem failedEntry_progress_ne (session msg : String) :
    (failedEntry session msg).progress ≠ "" := by
  intro h
  have hlen := congrArg String.length h
  have h17 : ("Analysis failed: " : String).length = 17 := rfl
  simp [failedEntry, String.length_append, h17] at hlen

/-- The source's final-recommendations extraction equals the content of the
last message of the final chunk's supervisor history (with empty-string
defaults), with no regard to whether that message is a routing message. -/
theorem finalRecs_lastMessage (oc : Option Chunk) :
    finalRecs oc = ((oc.bind Chunk.supHistory).map lastMessageContent).getD "" := by
  cases oc with
  | none => rfl
  | some c =>
    cases hh : c.supHistory with
    | none => simp [finalRecs, hh]
    | some hist =>
      cases hl : hist.getLast? with
      | none => simp [finalRecs, hh, hl, lastMessageContent]
      | some m => simp [finalRecs, hh, hl, lastMessageContent]

/-! Claim C1. -/

/-- Claim C1, counterexample: after a successful delete the run id is gone
(get_status gives 404), but the final-write path of `run_stock_analysis`
(`analysis_results[analysis_id] = completed dict`) performs no existence
check — applied after the deletion it re-inserts the entry, so a background
task finishing after the deletion resurrects the run. -/
theorem C1_counterexample :
    delete_analysis [("r", initialEntry "s")] "r"
      = .ok ([], "Analysis deleted successfully")
    ∧ get_analysis_status ([] : Store) "r" = .error (404, "Analysis not found")
    ∧ Store.lookup (finalizeCompleted ([] : Store) "r" "s" [] "") "r"
      = some (completedEntry "s" [] "")
    ∧ get_analysis_status (finalizeCompleted ([] : Store) "r" "s" [] "") "r"
      = .ok { analysis_id := "r", status := "completed",
              progress := "Analysis completed successfully",
              session_id := "s" } :=
  ⟨rfl, rfl, rfl, rfl⟩

/-- Claim C1 (amended): for every stored run, `delete` followed by
`get_status` yields 404; but the final-write paths of `run_stock_analysis`
(both the completed and the failed write) are unconditional dict
assignments, so a background task finishing after the deletion re-inserts
the entry instead of being ignored. -/
theorem C1_amended_holds (store : Store) (id session : String)
    (msgs : List ApiMsg) (fr msg : String)
    (h : (Store.lookup store id).isSome = true) :
    delete_analysis store id
      = .ok (Store.erase store id, "Analysis deleted successfully")
    ∧ get_analysis_status (Store.erase store id) id
      = .error (404, "Analysis not found")
    ∧ Store.lookup (finalizeCompleted (Store.erase store id) id session msgs fr) id
      = some (completedEntry session msgs fr)
    ∧ Store.lookup (finalizeFailed (Store.erase store id) id session msg) id
      = some (failedEntry session msg) := by
  refine ⟨?_, ?_, ?_, ?_⟩
  · simp [delete_analysis, h]
  · simp [get_analysis_status, lookup_erase_self]
  · exact lookup_insert_self _ _ _
  · exact lookup_insert_self _ _ _

/-- Claim C1 witness: the amended statement applied to a one-run store. -/
theorem C1_amended_witness :
    (Store.lookup [("r", initialEntry "s")] "r").isSome = true
    ∧ (delete_analysis [("r", initialEntry "s")] "r"
        = .ok (Store.erase [("r", initialEntry "s")] "r",
               "Analysis deleted successfully")
      ∧ get_analysis_status (Store.erase [("r", initialEntry "s")] "r") "r"
        = .error (404, "Analysis not found")
      ∧ Store.lookup (finalizeCompleted
          (Store.erase [("r", initialEntry "s")] "r") "r" "s" [] "done") "r"
        = some (completedEntry "s" [] "done")
      ∧ Store.lookup (finalizeFailed
          (Store.erase [("r", initialEntry "s")] "r") "r" "s" "boom") "r"
        = some (failedEntry "s" "boom")) :=
  ⟨rfl, C1_amended_holds [("r", initialEntry "s")] "r" "s" [] "done" "boom" rfl⟩

/-! Claim C2. -/

/-- Claim C2, counterexample: a supervisor stream that delegates for 11
chunks (more than the spec's example cap of 10) is consumed in full — the
run stores all 22 extracted updates and ends `completed` with no error, so
there is no turn cap and no `TurnBudgetExceeded` failure. -/
theorem C2_counterexample :
    (Store.lookup (run_stock_analysis [] "r" "s"
        (StreamOutcome.fin (List.replicate 11 demoChunk))) "r").map Entry.status
      = some "completed"
    ∧ (Store.lookup (run_stock_analysis [] "r" "s"
        (StreamOutcome.fin (List.replicate 11 demoChunk))) "r").map Entry.error
      = some none
    ∧ (Store.lookup (run_stock_analysis [] "r" "s"
        (StreamOutcome.fin (List.replicate 11 demoChunk))) "r").map
        (fun e => e.messages.length)
      = some 22 :=
  ⟨rfl, rfl, rfl⟩

/-- Claim C2 (amended): the run loop of `run_stock_analysis` enforces no
turn cap — it iterates once per chunk the supervisor stream yields, however
many there are, and when the stream ends the run transitions to `completed`
(never to `failed` with `TurnBudgetExceeded`, which does not exist in the
code); a supervisor that never signals DONE simply keeps the loop running
for as long as its stream yields chunks. -/
theorem C2_amended_holds (store : Store) (id session : String)
    (cs : List Chunk) :
    Store.lookup (run_stock_analysis store id session (StreamOutcome.fin cs)) id
      = some (completedEntry session (allExtracted cs) (finalRecs cs.getLast?))
    ∧ (completedEntry session (allExtracted cs) (finalRecs cs.getLast?)).status
      = "completed"
    ∧ (completedEntry session (allExtracted cs) (finalRecs cs.getLast?)).error
      = none := by
  refine ⟨?_, rfl, rfl⟩
  simp only [run_stock_analysis, finalizeCompleted, lookup_insert_self,
    midRun_snd]

/-! Claim C3. -/

/-- Claim C3: the divergent behavior at the failing input.  The empty and
whitespace-only messages do hit the deliberate
`HTTPException(400, "Message cannot be empty")`, but that exception is
raised inside the `try` block whose blanket `except Exception` re-raises
everything as `HTTPException(500, "Error processing request: " + str(e))`,
so the boundary answers 500, not 400.  The unknown-run-identifier half of
the claim holds: both lookup endpoints answer 404. -/
theorem C3_code_divergence :
    chat_endpoint { message := "" } (Except.ok "hello")
      = .error (500, "Error processing request: 400: Message cannot be empty")
    ∧ chat_endpoint { message := " \t " } (Except.ok "hello")
      = .error (500, "Error processing request: 400: Message cannot be empty")
    ∧ get_analysis_result ([] : Store) "no-such-run"
      = .error (404, "Analysis not found")
    ∧ get_analysis_status ([] : Store) "no-such-run"
      = .error (404, "Analysis not found") :=
  ⟨rfl, rfl, rfl, rfl⟩

/-! Claim C4. -/

/-- Claim C4, counterexample: a run failing with an exception whose
`str(e)` is empty (e.g. a bare `ValueError()`) is stored with
`error = ""` — the entry survives with status `failed`, but the
human-readable error string is empty, refuting the claimed non-emptiness. -/
theorem C4_counterexample :
    (Store.lookup (run_stock_analysis [] "r" "s"
        (StreamOutcome.exc [] "")) "r").map Entry.status = some "failed"
    ∧ (Store.lookup (run_stock_analysis [] "r" "s"
        (StreamOutcome.exc [] "")) "r").map Entry.error = some (some "")
    ∧ get_analysis_status (run_stock_analysis [] "r" "s"
        (StreamOutcome.exc [] "")) "r"
      = .ok { analysis_id := "r", status := "failed",
              progress := "Analysis failed: ", session_id := "s" } :=
  ⟨rfl, rfl, rfl⟩

/-- Claim C4 (amended): every failing run remains in the store with status
`failed` and with `error` equal to the exception's message string (non-empty
exactly when that message is; the `progress` field `Analysis failed: ...` is
always non-empty), and stays retrievable through both `get_status` and
`get_result` — the failure write never removes the entry. -/
theorem C4_amended_holds (store : Store) (id session : String)
    (seen : List Chunk) (msg : String) :
    Store.lookup (run_stock_analysis store id session (StreamOutcome.exc seen msg)) id
      = some (failedEntry session msg)
    ∧ (failedEntry session msg).status = "failed"
    ∧ (failedEntry session msg).error = some msg
    ∧ (failedEntry session msg).progress = "Analysis failed: " ++ msg
    ∧ (failedEntry session msg).progress ≠ ""
    ∧ get_analysis_status
        (run_stock_analysis store id session (StreamOutcome.exc seen msg)) id
      = .ok { analysis_id := id, status := "failed",
              progress := "Analysis failed: " ++ msg, session_id := session }
    ∧ get_analysis_result
        (run_stock_analysis store id session (StreamOutcome.exc seen msg)) id
      = .ok { analysis_id := id, status := "failed", messages := [],
              final_recommendations := none, session_id := session } := by
  have hl : Store.lookup
      (run_stock_analysis store id session (StreamOutcome.exc seen msg)) id
      = some (failedEntry session msg) := by
    simp only [run_stock_analysis, finalizeFailed, lookup_insert_self]
  refine ⟨hl, rfl, rfl, rfl, failedEntry_progress_ne session msg, ?_, ?_⟩
  · simp [get_analysis_status, hl, failedEntry]
  · simp [get_analysis_result, hl, failedEntry]

/-! Claim C5. -/

/-- Claim C5, counterexample: `start_analysis` returns the run id without
having written anything into the store (the background task, which performs
the first write, runs only after the response is sent), so a `get_status` or
`get_result` issued immediately after start returns 404 `RunNotFound` —
while the run has not reached any terminal state. -/
theorem C5_counterexample :
    (start_analysis ([] : Store) "a" {}).1 = ([] : Store)
    ∧ (start_analysis ([] : Store) "a" {}).2.1.analysis_id = "a"
    ∧ (start_analysis ([] : Store) "a" {}).2.1.status = "started"
    ∧ get_analysis_status ((start_analysis ([] : Store) "a" {}).1) "a"
      = .error (404, "Analysis not found")
    ∧ get_analysis_result ((start_analysis ([] : Store) "a" {}).1) "a"
      = .error (404, "Analysis not found") :=
  ⟨rfl, rfl, rfl, rfl, rfl⟩

/-- Claim C5 (amended): the Run record is created by the background task's
first store write, not by the start handler — `start_analysis` leaves the
store untouched while scheduling the task, so a poll between start's return
and the task's first write yields `RunNotFound`; from that first write on
the record exists (until deleted). -/
theorem C5_amended_holds (store : Store) (id : String)
    (req : StockAnalysisRequest) :
    (start_analysis store id req).1 = store
    ∧ (start_analysis store id req).2.2
      = { query := req.query, analysis_id := id, session_id := req.session_id }
    ∧ Store.lookup (startedStore store id req.session_id) id
      = some (initialEntry req.session_id) :=
  ⟨rfl, rfl, lookup_insert_self _ _ _⟩

/-! Claim C6. -/

/-- Claim C6: while a run is still consuming its stream, the stored entry
has status `running` and its messages are exactly the updates extracted from
the consumed chunks; consuming one more chunk only appends — the stored
message list grows monotonically and is never shortened or reordered before
a terminal write. -/
theorem C6_monotonic_append (store : Store) (id session : String)
    (cs : List Chunk) (k : Nat) (_h : k < cs.length) :
    (∃ e, Store.lookup (midRun store id session (cs.take k)).1 id = some e
        ∧ e.status = "running" ∧ e.messages = msgsUpTo cs k)
    ∧ msgsUpTo cs (k + 1) = msgsUpTo cs k ++ allExtracted ((cs.drop k).take 1)
    ∧ (msgsUpTo cs k).length ≤ (msgsUpTo cs (k + 1)).length := by
  refine ⟨?_, msgsUpTo_succ cs k, ?_⟩
  · obtain ⟨q, hq⟩ := midRun_lookup store id session (cs.take k)
    exact ⟨runningEntry session (allExtracted (cs.take k)) q, hq, rfl, rfl⟩
  · rw [msgsUpTo_succ]
    simp

/-- Claim C6 witness: the monotonicity statement applied to a concrete
two-chunk stream observed after one consumed chunk. -/
theorem C6_witness :
    1 < ([demoChunk, demoChunk] : List Chunk).length
    ∧ ((∃ e, Store.lookup
          (midRun ([] : Store) "r" "s"
            (([demoChunk, demoChunk] : List Chunk).take 1)).1 "r" = some e
        ∧ e.status = "running" ∧ e.messages = msgsUpTo [demoChunk, demoChunk] 1)
      ∧ msgsUpTo [demoChunk, demoChunk] (1 + 1)
        = msgsUpTo [demoChunk, demoChunk] 1
          ++ allExtracted ((([demoChunk, demoChunk] : List Chunk).drop 1).take 1)
      ∧ (msgsUpTo [demoChunk, demoChunk] 1).length
        ≤ (msgsUpTo [demoChunk, demoChunk] (1 + 1)).length) :=
  ⟨by decide, C6_monotonic_append [] "r" "s" [demoChunk, demoChunk] 1 (by decide)⟩

/-! Claim C7. -/

/-- Claim C7, counterexample: a completing run whose final supervisor
history ends with a routing (handoff) message stores that routing message's
content as `final_recommendations`, not the content of the last non-routing
message demanded by the claim. -/
theorem C7_counterexample :
    (Store.lookup (run_stock_analysis [] "r" "s"
        (StreamOutcome.fin [finalChunkC7])) "r").map Entry.final_recommendations
      = some (some "Transferring back to supervisor")
    ∧ specFinalResult finalHist = "Buy RELIANCE at 2900"
    ∧ (Store.lookup (run_stock_analysis [] "r" "s"
        (StreamOutcome.fin [finalChunkC7])) "r").map Entry.final_recommendations
      ≠ some (some (specFinalResult finalHist)) :=
  ⟨rfl, rfl, by decide⟩

/-- Claim C7 (amended): for every completing run the stored
`final_recommendations` equals the content of the *last* message of the
final chunk's supervisor history — routing or not — defaulting to the empty
string when the final chunk carries no supervisor history, when the history
is empty, or when its last message has no content; the run still completes. -/
theorem C7_amended_holds (store : Store) (id session : String)
    (cs : List Chunk) :
    Store.lookup (run_stock_analysis store id session (StreamOutcome.fin cs)) id
      = some (completedEntry session (allExtracted cs) (finalRecs cs.getLast?))
    ∧ finalRecs cs.getLast?
      = ((cs.getLast?.bind Chunk.supHistory).map lastMessageContent).getD ""
    ∧ (completedEntry session (allExtracted cs) (finalRecs cs.getLast?)).status
      = "completed" := by
  refine ⟨?_, finalRecs_lastMessage cs.getLast?, rfl⟩
  simp only [run_stock_analysis, finalizeCompleted, lookup_insert_self,
    midRun_snd]

/-! Claim C8. -/

/-- Claim C8: in every turn of the delegation loop the Supervisor executes
strictly first (the turn's event list starts with `supervisorRan`), and at
most one subordinate agent executes per turn — even when the Supervisor's
decision names several agents, only the first-named one runs. -/
theorem C8_one_agent_per_turn (ds : List SupDecision) (t : List TurnEvent)
    (h : t ∈ runLoop ds) :
    t.head? = some TurnEvent.supervisorRan ∧ t.countP isAgentRan ≤ 1 := by
  have hturn : ∀ d : SupDecision,
      (runTurn d).head? = some TurnEvent.supervisorRan
      ∧ (runTurn d).countP isAgentRan ≤ 1 := by
    intro d
    cases hsel : selectedAgent d <;>
      simp [runTurn, hsel, isAgentRan, List.countP_cons]
  induction ds with
  | nil => simp [runLoop] at h
  | cons d ds ih =>
    rw [runLoop] at h
    cases hsel : selectedAgent d with
    | none =>
      rw [hsel] at h
      simp at h
      subst h
      exact hturn d
    | some a =>
      rw [hsel] at h
      rcases List.mem_cons.mp h with h1 | h2
      · subst h1
        exact hturn d
      · exact ih h2

/-- Claim C8 witness: a stub Supervisor decision naming two agents yields a
turn that starts with the Supervisor and runs exactly one subordinate. -/
theorem C8_witness :
    runTurn (SupDecision.delegate ["market_data_agent", "news_analyst_agent"])
      ∈ runLoop [SupDecision.delegate ["market_data_agent", "news_analyst_agent"],
                 SupDecision.done]
    ∧ ((runTurn (SupDecision.delegate
          ["market_data_agent", "news_analyst_agent"])).head?
        = some TurnEvent.supervisorRan
      ∧ (runTurn (SupDecision.delegate
          ["market_data_agent", "news_analyst_agent"])).countP isAgentRan ≤ 1) :=
  ⟨by decide,
   C8_one_agent_per_turn
     [SupDecision.delegate ["market_data_agent", "news_analyst_agent"],
      SupDecision.done]
     (runTurn (SupDecision.delegate ["market_data_agent", "news_analyst_agent"]))
     (by decide)⟩

/-! Claim C9. -/

/-- Claim C9: an analysis request with an empty query is not rejected —
`analyze_stocks` substitutes the fixed default query (the call-site
`or`-fallback; the request model of `multi_agent_demo.py` carries the same
string as its field default) and behaves exactly as a run started with that
default; the endpoint never answers with a 4xx rejection, its only error
responses are 500s. -/
theorem C9_default_query (runSup : String → Except String (Option Chunk)) :
    analyze_stocks { query := "" } runSup
      = analyze_stocks { query := fmaDefaultQuery } runSup
    ∧ queryOrDefault { query := "" } = fmaDefaultQuery
    ∧ ({} : FMARequest).query = ""
    ∧ ({} : StockAnalysisRequest).query
      = "Analyze promising NSE stocks for short-term trading"
    ∧ (∀ req : FMARequest,
        (∃ r, analyze_stocks req runSup = .ok r)
        ∨ (∃ d, analyze_stocks req runSup = .error (500, d))) := by
  have hq : queryOrDefault ({ query := "" } : FMARequest) = fmaDefaultQuery := rfl
  have hq2 : queryOrDefault ({ query := fmaDefaultQuery } : FMARequest)
      = fmaDefaultQuery := rfl
  refine ⟨?_, hq, rfl, rfl, ?_⟩
  · simp only [analyze_stocks, hq, hq2]
  · intro req
    cases hr : runSup (queryOrDefault req) with
    | error e =>
      exact Or.inr ⟨"Analysis failed: " ++ e, by simp only [analyze_stocks, hr]⟩
    | ok fc =>
      cases hh : fc.bind Chunk.supHistory with
      | some hist =>
        have hrw : analyze_stocks req runSup
            = Except.ok { status := "success",
                          data := process_messages hist,
                          final_message :=
                            (match hist.getLast? with
                             | some m => m.content.getD "Analysis completed"
                             | none => "") } := by
          simp only [analyze_stocks, hr, hh]
        exact Or.inl ⟨_, hrw⟩
      | none =>
        exact Or.inr ⟨"Analysis failed: 500: No response from supervisor",
          by simp only [analyze_stocks, hr, hh]⟩

/-! Claim C10. -/

/-- Claim C10: the failure write of `run_stock_analysis` replaces the whole
entry with the failed record — status `failed`, `messages` the empty list,
the error and session fields, and nothing else — discarding every
intermediate progress message that the loop had stored (the last conjunct
exhibits those intermediate messages mid-run, before the failure). -/
theorem C10_failure_discards_messages (store : Store) (id session : String)
    (seen : List Chunk) (msg : String) :
    Store.lookup (run_stock_analysis store id session (StreamOutcome.exc seen msg)) id
      = some (failedEntry session msg)
    ∧ (failedEntry session msg).messages = []
    ∧ (failedEntry session msg).error = some msg
    ∧ (failedEntry session msg).final_recommendations = none
    ∧ (∃ q, Store.lookup (midRun store id session seen).1 id
        = some (runningEntry session (allExtracted seen) q)) := by
  refine ⟨?_, rfl, rfl, rfl, midRun_lookup store id session seen⟩
  simp only [run_stock_analysis, finalizeFailed, lookup_insert_self]
